import Mathlib

/-!
Shallow embedding of the order lifecycle engine of the simple-restaurant-api
repository (`src/application_server/src/handlers.rs`, with the storage schema
from `setup_test_db` in `src/application_server/src/lib.rs`).

The database is modelled as lists of rows; each SQL statement or repository
call becomes a pure function on this state.  The repository primitives
(`OrderResponse::get_existing_order_id`, `OrderItem::create`, ...) live in the
file `models.rs` of the repository, which is not part of the sources; they are modelled
from the spec (section 4.1, Order Repository) and marked as such.

Handlers are parameterised by a fault schedule `f : Nat → Bool`: the k-th
storage round-trip of a handler invocation fails iff `f k`.  A failed call
leaves the database unchanged.  `noFaults` recovers the pure, always-successful
behaviour.  The random cooking time drawn by `rand::thread_rng().gen_range(5..=15)`
on each loop iteration is modelled by an oracle `rng : Nat → Int` indexed by the
iteration counter.
-/

namespace Restaurant

/-- A row of the `tables` catalog table (`CREATE TABLE tables (id, code)`). -/
structure TableRow where
  id : Int
  code : String
deriving DecidableEq

/-- A row of the `menus` catalog table (`CREATE TABLE menus (id, name)`). -/
structure MenuRow where
  id : Int
  name : String
deriving DecidableEq

/-- A row of the `orders` table (`CREATE TABLE orders (id, table_id)`). -/
structure OrderRow where
  id : Int
  table_id : Int
deriving DecidableEq

/-- A row of the `order_items` table
(`CREATE TABLE order_items (id, order_id, menu_id, cooking_time, quantity)`). -/
structure OrderItemRow where
  id : Int
  order_id : Int
  menu_id : Int
  cooking_time : Int
  quantity : Int
deriving DecidableEq

/-- The SQLite database state: the four tables plus the next rowids SQLite
would assign on insertion into `orders` and `order_items`. -/
structure DB where
  tables : List TableRow
  menus : List MenuRow
  orders : List OrderRow
  order_items : List OrderItemRow
  next_order_id : Int
  next_item_id : Int
deriving DecidableEq

/-- SQLite integer division truncates toward zero, which is `Int.tdiv`. -/
def sqlDiv (a b : Int) : Int := Int.tdiv a b

/-- An HTTP reply as produced by the handlers: status code, the message string
of the JSON body (the value under `"error"` or `"success"`), and the order id
included in the body when the handler puts one there (`"id"`). -/
structure Resp where
  status : Nat
  msg : String
  oid : Option Int
deriving DecidableEq

/-- Handler state: the database plus the number of storage round-trips made so
far in the current handler invocation. -/
structure St where
  db : DB
  calls : Nat
deriving DecidableEq

/-- A fault schedule: the k-th storage call of a handler invocation fails iff
the schedule is true at k. -/
abbrev Schedule := Nat → Bool

/-- The schedule on which every storage call succeeds. -/
def noFaults : Schedule := fun _ => false

namespace OrderResponse

/-- Modelled from the spec: `find_open_order(table_id) -> Option<order_id>`
(spec 4.1); implemented by `OrderResponse::get_existing_order_id` in the
file `models.rs` of the repository, missing from the sources. -/
def get_existing_order_id (db : DB) (table_id : Int) : Option Int :=
  (db.orders.find? (fun o => o.table_id == table_id)).map (fun o => o.id)

/-- Modelled from the spec: `create_order(table_id) -> order_id` (spec 4.1);
implemented by `OrderResponse::create` in the missing `models.rs`.  Inserts an
order row and returns the last inserted rowid. -/
def create (db : DB) (table_id : Int) : DB × Int :=
  ({ db with orders := db.orders ++ [⟨db.next_order_id, table_id⟩],
             next_order_id := db.next_order_id + 1 }, db.next_order_id)

/-- Modelled from the spec: `order_has_items(order_id) -> bool` (spec 4.1);
implemented by `OrderResponse::has_items` in the missing `models.rs`. -/
def has_items (db : DB) (order_id : Int) : Bool :=
  db.order_items.any (fun it => it.order_id == order_id)

end OrderResponse

namespace OrderItem

/-- Modelled from the spec: `find_item(order_id, menu_id) -> Option<item_id>`
(spec 4.1); implemented by `OrderItem::get_existing_order_item_id` in the
missing `models.rs`. -/
def get_existing_order_item_id (db : DB) (order_id menu_id : Int) : Option Int :=
  (db.order_items.find? (fun it => it.order_id == order_id && it.menu_id == menu_id)).map
    (fun it => it.id)

/-- Modelled from the spec: `increment_quantity(item_id)`, quantity += 1 with
no cooking-time change (spec 4.1); implemented by
`OrderItem::add_quantity_of_existing_order_item` in the missing `models.rs`. -/
def add_quantity_of_existing_order_item (db : DB) (item_id : Int) : DB :=
  { db with order_items := db.order_items.map (fun it =>
      if it.id == item_id then { it with quantity := it.quantity + 1 } else it) }

/-- Modelled from the spec: `create_item(order_id, menu_id, cooking_time)`,
quantity starting at 1 (spec 4.1); implemented by `OrderItem::create` in the
missing `models.rs`. -/
def create (db : DB) (order_id menu_id cooking_time : Int) : DB :=
  { db with
      order_items := db.order_items ++ [⟨db.next_item_id, order_id, menu_id, cooking_time, 1⟩],
      next_item_id := db.next_item_id + 1 }

end OrderItem

/-- The subquery of both SQL statements of `delete_order_item_handler`:
`SELECT orders.id FROM orders JOIN tables ON orders.table_id = tables.id
WHERE tables.id = ?1`. -/
def joined_order_ids (db : DB) (table_id : Int) : List Int :=
  (db.orders.filter (fun o => db.tables.any (fun t => o.table_id == t.id && t.id == table_id))).map
    (fun o => o.id)

/-- The WHERE clause of the UPDATE in `delete_order_item_handler`:
`order_id IN (subquery) AND menu_id = ?2 AND quantity > 1`. -/
def update_matches (db : DB) (table_id menu_id : Int) (it : OrderItemRow) : Bool :=
  (joined_order_ids db table_id).contains it.order_id && it.menu_id == menu_id &&
    decide (1 < it.quantity)

/-- The UPDATE of `delete_order_item_handler` (handlers.rs line 260): on every
matching row set `cooking_time = cooking_time - (cooking_time/quantity)` and
`quantity = quantity - 1` (both right-hand sides read the old row), returning
the number of rows updated. -/
def decrement_update (db : DB) (table_id menu_id : Int) : DB × Nat :=
  ({ db with order_items := db.order_items.map (fun it =>
        if update_matches db table_id menu_id it then
          { it with cooking_time := it.cooking_time - sqlDiv it.cooking_time it.quantity,
                    quantity := it.quantity - 1 }
        else it) },
   (db.order_items.filter (fun it => update_matches db table_id menu_id it)).length)

/-- The WHERE clause of the DELETE in `delete_order_item_handler`:
`order_id IN (subquery) AND menu_id = ?2`. -/
def delete_matches (db : DB) (table_id menu_id : Int) (it : OrderItemRow) : Bool :=
  (joined_order_ids db table_id).contains it.order_id && it.menu_id == menu_id

/-- The DELETE of order items in `delete_order_item_handler` (line 282),
returning the number of rows deleted. -/
def delete_item_update (db : DB) (table_id menu_id : Int) : DB × Nat :=
  ({ db with order_items := db.order_items.filter (fun it =>
        !(delete_matches db table_id menu_id it)) },
   (db.order_items.filter (fun it => delete_matches db table_id menu_id it)).length)

/-- `DELETE from orders WHERE id = ?` (line 304). -/
def delete_order_exec (db : DB) (order_id : Int) : DB :=
  { db with orders := db.orders.filter (fun o => !(o.id == order_id)) }

/-- The per-menu-id loop of `create_order_handler` on the existing-order path
(handlers.rs lines 139-188): draw a cooking time, look up the line for
(order_id, menu_id); increment its quantity if present, create it otherwise;
any storage failure aborts with the corresponding 500 reply. -/
def update_items_loop (f : Schedule) (rng : Nat → Int) (order_id : Int) :
    List Int → Nat → St → Resp × St
  | [], _, s => (⟨200, "All order items updated successfully", none⟩, s)
  | menu_id :: rest, i, s =>
    let cooking_time := rng i
    let k := s.calls
    if f k then (⟨500, "Error creating for existing order Item", none⟩, ⟨s.db, k + 1⟩)
    else
      match OrderItem.get_existing_order_item_id s.db order_id menu_id with
      | some order_item_id =>
        if f (k + 1) then (⟨500, "Error updating order Item", none⟩, ⟨s.db, k + 2⟩)
        else update_items_loop f rng order_id rest (i + 1)
          ⟨OrderItem.add_quantity_of_existing_order_item s.db order_item_id, k + 2⟩
      | none =>
        if f (k + 1) then (⟨500, "Error creating order Item", none⟩, ⟨s.db, k + 2⟩)
        else update_items_loop f rng order_id rest (i + 1)
          ⟨OrderItem.create s.db order_id menu_id cooking_time, k + 2⟩

/-- The per-menu-id loop of `create_order_handler` on the new-order path
(handlers.rs lines 194-216): create a line for every menu id, with no
existence check; on completing all of them reply 201 with the order id. -/
def create_items_loop (f : Schedule) (rng : Nat → Int) (order_id : Int) :
    List Int → Nat → St → Resp × St
  | [], _, s => (⟨201, "Order and All Order Item Created Successfully", some order_id⟩, s)
  | menu_id :: rest, i, s =>
    let cooking_time := rng i
    let k := s.calls
    if f k then (⟨500, "Error creating order Item", none⟩, ⟨s.db, k + 1⟩)
    else create_items_loop f rng order_id rest (i + 1)
      ⟨OrderItem.create s.db order_id menu_id cooking_time, k + 1⟩

/-- `create_order_handler` (handlers.rs lines 126-235): reject an empty
`menu_ids` before any storage access, otherwise look up the open order for the
table and take the extend path (existing order) or the create path (new order
plus one line per requested menu id). -/
def create_order_handler (f : Schedule) (rng : Nat → Int) (db : DB) (table_id : Int)
    (menu_ids : List Int) : Resp × St :=
  if menu_ids.length == 0 then (⟨400, "Please Add Items", none⟩, ⟨db, 0⟩)
  else if f 0 then (⟨500, "Error checking for existing order", none⟩, ⟨db, 1⟩)
  else
    match OrderResponse.get_existing_order_id db table_id with
    | some order_id => update_items_loop f rng order_id menu_ids 0 ⟨db, 1⟩
    | none =>
      if f 1 then (⟨500, "Error creating order", none⟩, ⟨db, 2⟩)
      else
        let created := OrderResponse.create db table_id
        create_items_loop f rng created.2 menu_ids 0 ⟨created.1, 2⟩

/-- `delete_order_item_handler` (handlers.rs lines 257-348): conditionally
decrement the quantity of the matching line; if no row was updated, delete the
line, re-resolve the open order, check whether it still has items, and if not
delete the order — the result of that final DELETE is discarded by the source
(`let _ = conn.execute(...)`), so its failure still yields the 200 reply. -/
def delete_order_item_handler (f : Schedule) (db : DB) (table_id menu_id : Int) : Resp × St :=
  if f 0 then (⟨500, "Failed to update quantity", none⟩, ⟨db, 1⟩)
  else
    let upd := decrement_update db table_id menu_id
    if 0 < upd.2 then (⟨200, "Menu quantity updated successfully", none⟩, ⟨upd.1, 1⟩)
    else
      if f 1 then (⟨500, "Menu delete failed", none⟩, ⟨upd.1, 2⟩)
      else
        let del := delete_item_update upd.1 table_id menu_id
        if f 2 then (⟨500, "Failed to retrieve order ID", none⟩, ⟨del.1, 3⟩)
        else
          match OrderResponse.get_existing_order_id del.1 table_id with
          | none => (⟨500, "Failed to retrieve order ID", none⟩, ⟨del.1, 3⟩)
          | some order_id =>
            if f 3 then (⟨500, "Menu deleted failed", none⟩, ⟨del.1, 4⟩)
            else
              if OrderResponse.has_items del.1 order_id then
                (⟨200, "Menu deleted successfully", none⟩, ⟨del.1, 4⟩)
              else
                (⟨200, "Menu deleted successfully and order deleted", none⟩,
                 ⟨if f 4 then del.1 else delete_order_exec del.1 order_id, 5⟩)

/-- At most one `orders` row per table id (spec section 3 invariant). -/
def AtMostOneOrderPerTable (db : DB) : Prop :=
  db.orders.Pairwise (fun a b => a.table_id ≠ b.table_id)

/-- Every stored order item has `quantity >= 1` and `cooking_time >= 1`
(spec section 3, OrderItem invariants). -/
def ItemsWF (db : DB) : Prop :=
  ∀ it ∈ db.order_items, 1 ≤ it.quantity ∧ 1 ≤ it.cooking_time

/-- A deterministic cooking-time oracle always drawing 5. -/
def rng5 : Nat → Int := fun _ => 5

/-- A deterministic cooking-time oracle always drawing 7. -/
def rng7 : Nat → Int := fun _ => 7

/-- Fixture: catalog rows only, no order (as after `setup_static_data`). -/
def dbNoOrder : DB := ⟨[⟨1, "T-01"⟩], [⟨1, "M-01"⟩, ⟨2, "M-02"⟩], [], [], 1, 1⟩

/-- Fixture: one open order for table 1 holding the single line (menu 1,
cooking time 6, quantity 1), as in test case 06 of `lib.rs`. -/
def dbOneItem : DB :=
  ⟨[⟨1, "T-01"⟩], [⟨1, "M-01"⟩, ⟨2, "M-02"⟩], [⟨1, 1⟩], [⟨1, 1, 1, 6, 1⟩], 2, 2⟩

/-- Fixture: one open order for table 1 with a line of quantity 2 and cooking
time 6, as in test case 07 of `lib.rs`. -/
def dbQtyTwo : DB := ⟨[⟨1, "T-01"⟩], [⟨1, "M-01"⟩], [⟨1, 1⟩], [⟨1, 1, 1, 6, 2⟩], 2, 2⟩

/-- Fixture: one open order for table 1 with two lines (menus 1 and 2), as in
test case 05 of `lib.rs`. -/
def dbTwoItems : DB :=
  ⟨[⟨1, "T-01"⟩], [⟨1, "M-01"⟩, ⟨2, "M-02"⟩], [⟨1, 1⟩],
   [⟨1, 1, 1, 6, 1⟩, ⟨2, 1, 2, 7, 1⟩], 2, 3⟩

/-- Schedule on which exactly the fifth storage call (index 4) fails. -/
def faultAt4 : Schedule := fun k => k == 4



theorem noFaults_apply (k : Nat) : noFaults k = false := rfl

theorem update_items_loop_orders (f : Schedule) (rng : Nat → Int) (oid : Int) :
    ∀ (ids : List Int) (i : Nat) (s : St),
      (update_items_loop f rng oid ids i s).2.db.orders = s.db.orders := by
  intro ids
  induction ids with
  | nil => intro i s; rfl
  | cons m rest ih =>
    intro i s
    rw [update_items_loop]
    split
    · rfl
    · cases OrderItem.get_existing_order_item_id s.db oid m with
      | some iid =>
        dsimp only
        split
        · rfl
        · exact ih (i + 1) _
      | none =>
        dsimp only
        split
        · rfl
        · exact ih (i + 1) _

theorem create_items_loop_orders (f : Schedule) (rng : Nat → Int) (oid : Int) :
    ∀ (ids : List Int) (i : Nat) (s : St),
      (create_items_loop f rng oid ids i s).2.db.orders = s.db.orders := by
  intro ids
  induction ids with
  | nil => intro i s; rfl
  | cons m rest ih =>
    intro i s
    rw [create_items_loop]
    split
    · rfl
    · exact ih (i + 1) _



/-- C8: for every table id and every fault schedule, `Submit` with an empty
`menu_ids` list returns 400 "Please Add Items", leaves the database unchanged
and performs zero storage calls (the check precedes any storage access). -/
theorem submit_empty_rejected (f : Schedule) (rng : Nat → Int) (db : DB) (table_id : Int) :
    create_order_handler f rng db table_id [] = (⟨400, "Please Add Items", none⟩, ⟨db, 0⟩) := rfl

/-- C4: under every fault schedule, `Submit` preserves the at-most-one-order-
per-table invariant, and on the path where the open-order lookup finds an
existing order it leaves the orders table untouched (a new order row is
created only when the lookup finds none). -/
theorem submit_at_most_one_order (f : Schedule) (rng : Nat → Int) (db : DB) (t : Int)
    (ids : List Int) (h : AtMostOneOrderPerTable db) :
    AtMostOneOrderPerTable (create_order_handler f rng db t ids).2.db ∧
      (∀ o, OrderResponse.get_existing_order_id db t = some o →
        (create_order_handler f rng db t ids).2.db.orders = db.orders) := by
  rw [create_order_handler]
  split
  · exact ⟨h, fun o _ => rfl⟩
  · split
    · exact ⟨h, fun o _ => rfl⟩
    · cases hlook : OrderResponse.get_existing_order_id db t with
      | some oid =>
        dsimp only
        constructor
        · unfold AtMostOneOrderPerTable
          rw [update_items_loop_orders]
          exact h
        · intro o _
          rw [update_items_loop_orders]
      | none =>
        dsimp only
        constructor
        · split
          · exact h
          · unfold AtMostOneOrderPerTable
            rw [create_items_loop_orders]
            dsimp only [OrderResponse.create]
            rw [List.pairwise_append]
            refine ⟨h, List.pairwise_singleton _ _, ?_⟩
            intro a ha b hb
            have hfind : db.orders.find? (fun o => o.table_id == t) = none := by
              unfold OrderResponse.get_existing_order_id at hlook
              cases hf : db.orders.find? (fun o => o.table_id == t) with
              | none => rfl
              | some x => rw [hf] at hlook; simp at hlook
            rw [List.find?_eq_none] at hfind
            have := hfind a ha
            simp only [List.mem_singleton] at hb
            subst hb
            simp only [beq_iff_eq] at this
            simpa using this
        · intro o ho
          exact Option.noConfusion ho



theorem update_items_loop_resp (rng : Nat → Int) (oid : Int) :
    ∀ (ids : List Int) (i : Nat) (s : St),
      (update_items_loop noFaults rng oid ids i s).1 =
        ⟨200, "All order items updated successfully", none⟩ := by
  intro ids
  induction ids with
  | nil => intro i s; rfl
  | cons m rest ih =>
    intro i s
    rw [update_items_loop]
    cases OrderItem.get_existing_order_item_id s.db oid m with
    | some iid => exact ih (i + 1) _
    | none => exact ih (i + 1) _

theorem create_items_loop_resp (rng : Nat → Int) (oid : Int) :
    ∀ (ids : List Int) (i : Nat) (s : St),
      (create_items_loop noFaults rng oid ids i s).1 =
        ⟨201, "Order and All Order Item Created Successfully", some oid⟩ := by
  intro ids
  induction ids with
  | nil => intro i s; rfl
  | cons m rest ih =>
    intro i s
    rw [create_items_loop]
    exact ih (i + 1) _

/-- C6 (amended): for a non-empty fault-free submission, the extend path
replies 200 "All order items updated successfully" carrying no order id,
while the create path replies 201 "Order and All Order Item Created
Successfully" carrying the new order id; whether the order was newly created
is visible only through the status code and message, not through a flag. -/
theorem submit_success_response (rng : Nat → Int) (db : DB) (t : Int) (ids : List Int)
    (hne : ids ≠ []) :
    (∀ oid, OrderResponse.get_existing_order_id db t = some oid →
      (create_order_handler noFaults rng db t ids).1 =
        ⟨200, "All order items updated successfully", none⟩) ∧
    (OrderResponse.get_existing_order_id db t = none →
      (create_order_handler noFaults rng db t ids).1 =
        ⟨201, "Order and All Order Item Created Successfully", some db.next_order_id⟩) := by
  have hlen : (ids.length == 0) = false := by
    simp only [beq_eq_false_iff_ne, ne_eq, List.length_eq_zero]
    exact hne
  constructor
  · intro oid ho
    rw [create_order_handler, hlen]
    simp only [Bool.false_eq_true, if_false, noFaults_apply, ho]
    exact update_items_loop_resp rng oid ids 0 _
  · intro ho
    rw [create_order_handler, hlen]
    simp only [Bool.false_eq_true, if_false, noFaults_apply, ho]
    exact create_items_loop_resp rng _ ids 0 _



theorem one_le_sub_sqlDiv (c q : Int) (hc : 1 ≤ c) (hq : 2 ≤ q) : 1 ≤ c - sqlDiv c q := by
  unfold sqlDiv
  have h1 : Int.tdiv c q = c / q := Int.tdiv_eq_ediv (by omega) (by omega)
  have h2 : c / q < c := by
    rw [Int.ediv_lt_iff_lt_mul (by omega)]
    nlinarith
  omega

theorem ItemsWF_create (db : DB) (o m ct : Int) (h : ItemsWF db) (hct : 1 ≤ ct) :
    ItemsWF (OrderItem.create db o m ct) := by
  intro it hit
  simp only [OrderItem.create, List.mem_append, List.mem_singleton] at hit
  rcases hit with hit | rfl
  · exact h it hit
  · exact ⟨le_refl 1, hct⟩

theorem ItemsWF_add_quantity (db : DB) (iid : Int) (h : ItemsWF db) :
    ItemsWF (OrderItem.add_quantity_of_existing_order_item db iid) := by
  intro it hit
  simp only [OrderItem.add_quantity_of_existing_order_item, List.mem_map] at hit
  obtain ⟨a, ha, rfl⟩ := hit
  have := h a ha
  split
  · dsimp only
    omega
  · exact this

theorem ItemsWF_decrement (db : DB) (t m : Int) (h : ItemsWF db) :
    ItemsWF (decrement_update db t m).1 := by
  intro it hit
  simp only [decrement_update, List.mem_map] at hit
  obtain ⟨a, ha, rfl⟩ := hit
  have hwf := h a ha
  split
  · next hmatch =>
    unfold update_matches at hmatch
    simp only [Bool.and_eq_true, decide_eq_true_eq] at hmatch
    refine ⟨by dsimp only; omega, ?_⟩
    show (1 : Int) ≤ a.cooking_time - sqlDiv a.cooking_time a.quantity
    exact one_le_sub_sqlDiv _ _ hwf.2 (by omega)
  · exact hwf

theorem ItemsWF_delete_item (db : DB) (t m : Int) (h : ItemsWF db) :
    ItemsWF (delete_item_update db t m).1 := by
  intro it hit
  simp only [delete_item_update, List.mem_filter] at hit
  exact h it hit.1

theorem ItemsWF_delete_order (db : DB) (oid : Int) (h : ItemsWF db) :
    ItemsWF (delete_order_exec db oid) := h

theorem update_items_loop_WF (f : Schedule) (rng : Nat → Int) (oid : Int)
    (hrng : ∀ i, 5 ≤ rng i ∧ rng i ≤ 15) :
    ∀ (ids : List Int) (i : Nat) (s : St), ItemsWF s.db →
      ItemsWF (update_items_loop f rng oid ids i s).2.db := by
  intro ids
  induction ids with
  | nil => intro i s hs; exact hs
  | cons m rest ih =>
    intro i s hs
    rw [update_items_loop]
    split
    · exact hs
    · cases OrderItem.get_existing_order_item_id s.db oid m with
      | some iid =>
        dsimp only
        split
        · exact hs
        · exact ih (i + 1) _ (ItemsWF_add_quantity _ _ hs)
      | none =>
        dsimp only
        split
        · exact hs
        · exact ih (i + 1) _ (ItemsWF_create _ _ _ _ hs (by have := (hrng i).1; omega))

theorem create_items_loop_WF (f : Schedule) (rng : Nat → Int) (oid : Int)
    (hrng : ∀ i, 5 ≤ rng i ∧ rng i ≤ 15) :
    ∀ (ids : List Int) (i : Nat) (s : St), ItemsWF s.db →
      ItemsWF (create_items_loop f rng oid ids i s).2.db := by
  intro ids
  induction ids with
  | nil => intro i s hs; exact hs
  | cons m rest ih =>
    intro i s hs
    rw [create_items_loop]
    split
    · exact hs
    · exact ih (i + 1) _ (ItemsWF_create _ _ _ _ hs (by have := (hrng i).1; omega))

/-- C10: both lifecycle operations preserve, under every fault schedule and
with cooking times drawn from the 5..=15 range of the source, the invariant that
every stored order item keeps quantity >= 1 and cooking_time >= 1: new lines
start at quantity 1 with cooking time >= 5, increments only grow the quantity,
and the proportional decrement c - floor(c / q) applied when q > 1 never
drives a positive cooking time below 1. -/
theorem lifecycle_preserves_item_bounds (db : DB) (rng : Nat → Int)
    (hrng : ∀ i, 5 ≤ rng i ∧ rng i ≤ 15) (hdb : ItemsWF db) :
    (∀ (f : Schedule) (t : Int) (ids : List Int),
      ItemsWF (create_order_handler f rng db t ids).2.db) ∧
    (∀ (f : Schedule) (t m : Int),
      ItemsWF (delete_order_item_handler f db t m).2.db) := by
  constructor
  · intro f t ids
    rw [create_order_handler]
    split
    · exact hdb
    · split
      · exact hdb
      · cases OrderResponse.get_existing_order_id db t with
        | some oid => exact update_items_loop_WF f rng oid hrng ids 0 _ hdb
        | none =>
          dsimp only
          split
          · exact hdb
          · exact create_items_loop_WF f rng _ hrng ids 0 _ hdb
  · intro f t m
    have hupd : ItemsWF (decrement_update db t m).1 := ItemsWF_decrement db t m hdb
    have hdel : ItemsWF (delete_item_update (decrement_update db t m).1 t m).1 :=
      ItemsWF_delete_item _ t m hupd
    simp only [delete_order_item_handler]
    split
    · exact hdb
    · split
      · exact hupd
      · split
        · exact hupd
        · split
          · exact hdel
          · split
            · exact hdel
            · split
              · exact hdel
              · split
                · exact hdel
                · split
                  · exact hdel
                  · exact ItemsWF_delete_order _ _ hdel



theorem decrement_update_fst (db : DB) (t m : Int) :
    (decrement_update db t m).1 = { db with order_items := db.order_items.map (fun it =>
        if update_matches db t m it then
          { it with cooking_time := it.cooking_time - sqlDiv it.cooking_time it.quantity,
                    quantity := it.quantity - 1 }
        else it) } := rfl

theorem decrement_update_zero (db : DB) (t m : Int)
    (h : (decrement_update db t m).2 = 0) : (decrement_update db t m).1 = db := by
  have hnil : ∀ a ∈ db.order_items, ¬ update_matches db t m a = true := by
    rw [← List.filter_eq_nil_iff]
    exact List.length_eq_zero.mp h
  rw [decrement_update_fst]
  have hmap : db.order_items.map (fun it =>
      if update_matches db t m it then
        { it with cooking_time := it.cooking_time - sqlDiv it.cooking_time it.quantity,
                  quantity := it.quantity - 1 }
      else it) = db.order_items := by
    conv_rhs => rw [← List.map_id db.order_items]
    exact List.map_congr_left (fun a ha => if_neg (hnil a ha))
  rw [hmap]

theorem find?_of_filter_singleton {α : Type} (p : α → Bool) (a : α) :
    ∀ l : List α, l.filter p = [a] → l.find? p = some a := by
  intro l
  induction l with
  | nil => intro h; simp at h
  | cons x xs ih =>
    intro h
    by_cases hx : p x = true
    · rw [List.filter_cons_of_pos hx] at h
      injection h with h1 h2
      rw [List.find?_cons_of_pos _ hx, h1]
    · rw [List.filter_cons_of_neg hx] at h
      rw [List.find?_cons_of_neg _ hx]
      exact ih h

theorem joined_order_ids_eq (db : DB) (t : Int) (trow : TableRow)
    (htt : trow ∈ db.tables) (hid : trow.id = t) :
    joined_order_ids db t =
      (db.orders.filter (fun o => o.table_id == t)).map (fun o => o.id) := by
  unfold joined_order_ids
  congr 1
  apply List.filter_congr
  intro o _
  rw [Bool.eq_iff_iff]
  simp only [List.any_eq_true, Bool.and_eq_true, beq_iff_eq]
  constructor
  · rintro ⟨tt, _, h1, h2⟩
    omega
  · intro h
    exact ⟨trow, htt, by omega, by omega⟩



theorem delete_handler_run_no_update (db : DB) (t m : Int)
    (h0 : (decrement_update db t m).2 = 0) :
    delete_order_item_handler noFaults db t m =
      (match OrderResponse.get_existing_order_id (delete_item_update db t m).1 t with
       | none => (⟨500, "Failed to retrieve order ID", none⟩,
                  ⟨(delete_item_update db t m).1, 3⟩)
       | some oid =>
         if OrderResponse.has_items (delete_item_update db t m).1 oid then
           (⟨200, "Menu deleted successfully", none⟩, ⟨(delete_item_update db t m).1, 4⟩)
         else
           (⟨200, "Menu deleted successfully and order deleted", none⟩,
            ⟨delete_order_exec (delete_item_update db t m).1 oid, 5⟩)) := by
  have h1 : (decrement_update db t m).1 = db := decrement_update_zero db t m h0
  rw [delete_order_item_handler]
  simp only [noFaults_apply, Bool.false_eq_true, if_false, h0, h1, lt_self_iff_false]



theorem order_id_mem_joined (db : DB) (t : Int) (trow : TableRow) (orow : OrderRow)
    (htt : trow ∈ db.tables) (htid : trow.id = t)
    (ho : orow ∈ db.orders) (hotid : orow.table_id = t) :
    (joined_order_ids db t).contains orow.id = true := by
  apply List.elem_iff.mpr
  unfold joined_order_ids
  apply List.mem_map.mpr
  refine ⟨orow, ?_, rfl⟩
  apply List.mem_filter.mpr
  refine ⟨ho, ?_⟩
  apply List.any_eq_true.mpr
  refine ⟨trow, htt, ?_⟩
  simp only [Bool.and_eq_true, beq_iff_eq]
  omega

/-- C2: `RemoveOneUnit` on the table and menu of a row with quantity q > 1 and
positive cooking time c replies 200 "Menu quantity updated successfully" and
stores the row with quantity q - 1 and cooking time c - floor(c / q), the
per-unit share computed from the pre-decrement quantity (`/` on `Int` is floor
division, which agrees with the truncating division of SQLite since c > 0 and
q > 1); a row with quantity exactly 1 never satisfies the guard of the UPDATE, and
when the guard matches no row at all the handler proceeds to the delete path,
removing every matching row instead of decrementing it. -/
theorem remove_one_unit_decrement_rule (db : DB) (t m : Int) :
    (∀ (r : OrderItemRow) (trow : TableRow) (orow : OrderRow),
      r ∈ db.order_items → trow ∈ db.tables → trow.id = t →
      orow ∈ db.orders → orow.id = r.order_id → orow.table_id = t →
      r.menu_id = m → 1 < r.quantity → 0 < r.cooking_time →
      (delete_order_item_handler noFaults db t m).1 =
        ⟨200, "Menu quantity updated successfully", none⟩ ∧
      { r with quantity := r.quantity - 1,
               cooking_time := r.cooking_time - r.cooking_time / r.quantity } ∈
        (delete_order_item_handler noFaults db t m).2.db.order_items) ∧
    (∀ r : OrderItemRow, r.quantity = 1 → update_matches db t m r = false) ∧
    ((decrement_update db t m).2 = 0 →
      ∀ it ∈ db.order_items, delete_matches db t m it = true →
        it ∉ (delete_order_item_handler noFaults db t m).2.db.order_items) := by
  refine ⟨?_, ?_, ?_⟩
  · intro r trow orow hr htt htid ho hoid hotid hm hq hc
    have hcontains : (joined_order_ids db t).contains r.order_id = true := by
      rw [← hoid]
      exact order_id_mem_joined db t trow orow htt htid ho hotid
    have hmatch : update_matches db t m r = true := by
      unfold update_matches
      simp only [Bool.and_eq_true, beq_iff_eq, decide_eq_true_eq]
      exact ⟨⟨hcontains, hm⟩, hq⟩
    have hpos : 0 < (decrement_update db t m).2 := by
      simp only [decrement_update]
      apply List.length_pos.mpr
      exact List.ne_nil_of_mem (List.mem_filter.mpr ⟨hr, hmatch⟩)
    have hresp : delete_order_item_handler noFaults db t m =
        (⟨200, "Menu quantity updated successfully", none⟩,
         ⟨(decrement_update db t m).1, 1⟩) := by
      rw [delete_order_item_handler]
      simp only [noFaults_apply, Bool.false_eq_true, if_false]
      rw [if_pos hpos]
    rw [hresp]
    refine ⟨rfl, ?_⟩
    have hmem := List.mem_map_of_mem (f := fun it =>
      if update_matches db t m it then
        { it with cooking_time := it.cooking_time - sqlDiv it.cooking_time it.quantity,
                  quantity := it.quantity - 1 }
      else it) hr
    dsimp only at hmem
    rw [if_pos hmatch] at hmem
    have hdiv : sqlDiv r.cooking_time r.quantity = r.cooking_time / r.quantity :=
      Int.tdiv_eq_ediv (by omega) (by omega)
    rw [decrement_update_fst]
    dsimp only
    rw [← hdiv]
    exact hmem
  · intro r hq1
    unfold update_matches
    simp [hq1]
  · intro h0 it hit hmatch
    rw [delete_handler_run_no_update db t m h0]
    cases hlook : OrderResponse.get_existing_order_id (delete_item_update db t m).1 t with
    | none =>
      dsimp only
      intro hmem
      simp only [delete_item_update] at hmem
      rw [List.mem_filter, hmatch] at hmem
      simp at hmem
    | some oid =>
      dsimp only
      split
      · intro hmem
        simp only [delete_item_update] at hmem
        rw [List.mem_filter, hmatch] at hmem
        simp at hmem
      · intro hmem
        simp only [delete_order_exec, delete_item_update] at hmem
        rw [List.mem_filter, hmatch] at hmem
        simp at hmem



theorem delete_item_update_fst_orders (db : DB) (t m : Int) :
    (delete_item_update db t m).1.orders = db.orders := rfl

theorem delete_item_update_fst_items (db : DB) (t m : Int) :
    (delete_item_update db t m).1.order_items =
      db.order_items.filter (fun it => !(delete_matches db t m it)) := rfl

theorem delete_order_exec_orders (db : DB) (oid : Int) :
    (delete_order_exec db oid).orders = db.orders.filter (fun o => !(o.id == oid)) := rfl

theorem contains_singleton_eq {a b : Int} (h : ([b].contains a) = true) : a = b := by
  have := List.elem_iff.mp h
  simpa using this

/-- C3: on an order that is the only order of its table and contains exactly
one item (quantity 1), `RemoveOneUnit` on the table and menu of that item replies
200 "Menu deleted successfully and order deleted", deletes the item and
cascade-deletes the order, so no order row for the table remains and a
subsequent open-order lookup returns none. -/
theorem remove_last_item_cascades (db : DB) (t m : Int) (trow : TableRow) (orow : OrderRow)
    (r : OrderItemRow)
    (htt : trow ∈ db.tables) (htid : trow.id = t)
    (horders : db.orders.filter (fun o => o.table_id == t) = [orow])
    (hitems : db.order_items.filter (fun it => it.order_id == orow.id) = [r])
    (hq : r.quantity = 1) (hm : r.menu_id = m) :
    (delete_order_item_handler noFaults db t m).1 =
      ⟨200, "Menu deleted successfully and order deleted", none⟩ ∧
    (delete_order_item_handler noFaults db t m).2.db.orders.filter
      (fun o => o.table_id == t) = [] ∧
    OrderResponse.get_existing_order_id
      (delete_order_item_handler noFaults db t m).2.db t = none := by
  have hjoin : joined_order_ids db t = [orow.id] := by
    rw [joined_order_ids_eq db t trow htt htid, horders]
    rfl
  have huniq : ∀ it ∈ db.order_items, it.order_id = orow.id → it = r := by
    intro it hit heq
    have : it ∈ db.order_items.filter (fun it => it.order_id == orow.id) :=
      List.mem_filter.mpr ⟨hit, by simp [heq]⟩
    rw [hitems] at this
    simpa using this
  have hrmem : r ∈ db.order_items ∧ r.order_id = orow.id := by
    have : r ∈ db.order_items.filter (fun it => it.order_id == orow.id) := by
      rw [hitems]; exact List.mem_singleton.mpr rfl
    have h2 := List.mem_filter.mp this
    exact ⟨h2.1, by simpa using h2.2⟩
  have h0 : (decrement_update db t m).2 = 0 := by
    simp only [decrement_update]
    rw [List.length_eq_zero, List.filter_eq_nil_iff]
    intro it hit hmatch
    unfold update_matches at hmatch
    simp only [hjoin, Bool.and_eq_true, decide_eq_true_eq] at hmatch
    have heq : it.order_id = orow.id := contains_singleton_eq hmatch.1.1
    have := huniq it hit heq
    subst this
    omega
  have hlook : OrderResponse.get_existing_order_id (delete_item_update db t m).1 t =
      some orow.id := by
    unfold OrderResponse.get_existing_order_id
    rw [delete_item_update_fst_orders]
    rw [find?_of_filter_singleton _ _ _ horders]
    rfl
  have hrdel : delete_matches db t m r = true := by
    unfold delete_matches
    simp only [hjoin, Bool.and_eq_true, beq_iff_eq]
    refine ⟨?_, hm⟩
    apply List.elem_iff.mpr
    simp [hrmem.2]
  have hhas : OrderResponse.has_items (delete_item_update db t m).1 orow.id = false := by
    unfold OrderResponse.has_items
    rw [delete_item_update_fst_items]
    rw [List.any_eq_false]
    intro it hit
    rw [List.mem_filter] at hit
    intro hcon
    have heq : it.order_id = orow.id := by simpa using hcon
    have := huniq it hit.1 heq
    subst this
    rw [hrdel] at hit
    simp at hit
  have hrun : delete_order_item_handler noFaults db t m =
      (⟨200, "Menu deleted successfully and order deleted", none⟩,
       ⟨delete_order_exec (delete_item_update db t m).1 orow.id, 5⟩) := by
    rw [delete_handler_run_no_update db t m h0, hlook]
    simp only [hhas, Bool.false_eq_true, if_false]
  rw [hrun]
  refine ⟨rfl, ?_, ?_⟩
  · dsimp only
    rw [delete_order_exec_orders, delete_item_update_fst_orders]
    rw [List.filter_eq_nil_iff]
    intro o ho hot
    rw [List.mem_filter] at ho
    have : o ∈ db.orders.filter (fun o => o.table_id == t) :=
      List.mem_filter.mpr ⟨ho.1, hot⟩
    rw [horders] at this
    have := List.mem_singleton.mp this
    subst this
    simp at ho
  · unfold OrderResponse.get_existing_order_id
    dsimp only
    rw [delete_order_exec_orders, delete_item_update_fst_orders]
    have hfind : (db.orders.filter (fun o => !(o.id == orow.id))).find?
        (fun o => o.table_id == t) = none := by
      rw [List.find?_eq_none]
      intro o ho hot
      rw [List.mem_filter] at ho
      have : o ∈ db.orders.filter (fun o => o.table_id == t) :=
        List.mem_filter.mpr ⟨ho.1, hot⟩
      rw [horders] at this
      have := List.mem_singleton.mp this
      subst this
      simp at ho
    rw [hfind]
    rfl

/-- C9: on an order with a line for menu m (quantity 1) and another line r2
for a different menu, `RemoveOneUnit` of menu m replies 200 "Menu deleted
successfully", keeps the orders table unchanged (no cascade), keeps r2 with
all its fields intact, and removes every line of that order for menu m. -/
theorem remove_item_non_cascade (db : DB) (t m : Int) (trow : TableRow) (orow : OrderRow)
    (r2 : OrderItemRow)
    (htt : trow ∈ db.tables) (htid : trow.id = t)
    (horders : db.orders.filter (fun o => o.table_id == t) = [orow])
    (hmq : ∀ it ∈ db.order_items, it.order_id = orow.id → it.menu_id = m → it.quantity = 1)
    (hr2 : r2 ∈ db.order_items) (h2o : r2.order_id = orow.id) (h2m : r2.menu_id ≠ m) :
    (delete_order_item_handler noFaults db t m).1 =
      ⟨200, "Menu deleted successfully", none⟩ ∧
    (delete_order_item_handler noFaults db t m).2.db.orders = db.orders ∧
    r2 ∈ (delete_order_item_handler noFaults db t m).2.db.order_items ∧
    (∀ it ∈ (delete_order_item_handler noFaults db t m).2.db.order_items,
      ¬(it.order_id = orow.id ∧ it.menu_id = m)) := by
  have hjoin : joined_order_ids db t = [orow.id] := by
    rw [joined_order_ids_eq db t trow htt htid, horders]
    rfl
  have h0 : (decrement_update db t m).2 = 0 := by
    simp only [decrement_update]
    rw [List.length_eq_zero, List.filter_eq_nil_iff]
    intro it hit hmatch
    unfold update_matches at hmatch
    simp only [hjoin, Bool.and_eq_true, beq_iff_eq, decide_eq_true_eq] at hmatch
    have heq : it.order_id = orow.id := contains_singleton_eq hmatch.1.1
    have := hmq it hit heq hmatch.1.2
    omega
  have hlook : OrderResponse.get_existing_order_id (delete_item_update db t m).1 t =
      some orow.id := by
    unfold OrderResponse.get_existing_order_id
    rw [delete_item_update_fst_orders]
    rw [find?_of_filter_singleton _ _ _ horders]
    rfl
  have hr2keep : r2 ∈ (delete_item_update db t m).1.order_items := by
    rw [delete_item_update_fst_items]
    apply List.mem_filter.mpr
    refine ⟨hr2, ?_⟩
    unfold delete_matches
    simp only [Bool.not_eq_eq_eq_not, Bool.not_true, Bool.and_eq_false_iff]
    right
    simpa using h2m
  have hhas : OrderResponse.has_items (delete_item_update db t m).1 orow.id = true := by
    unfold OrderResponse.has_items
    apply List.any_eq_true.mpr
    exact ⟨r2, hr2keep, by simp [h2o]⟩
  have hrun : delete_order_item_handler noFaults db t m =
      (⟨200, "Menu deleted successfully", none⟩, ⟨(delete_item_update db t m).1, 4⟩) := by
    rw [delete_handler_run_no_update db t m h0, hlook]
    simp only [hhas, if_true]
  rw [hrun]
  refine ⟨rfl, delete_item_update_fst_orders db t m, hr2keep, ?_⟩
  intro it hit hcon
  dsimp only at hit
  rw [delete_item_update_fst_items, List.mem_filter] at hit
  have hdm : delete_matches db t m it = true := by
    unfold delete_matches
    simp only [hjoin, Bool.and_eq_true, beq_iff_eq]
    refine ⟨?_, hcon.2⟩
    apply List.elem_iff.mpr
    simp [hcon.1]
  rw [hdm] at hit
  simp at hit

theorem update_matches_imp_delete (db : DB) (t m : Int) (it : OrderItemRow)
    (h : update_matches db t m it = true) : delete_matches db t m it = true := by
  unfold update_matches at h
  unfold delete_matches
  simp only [Bool.and_eq_true] at h ⊢
  exact h.1

theorem get_existing_order_id_none_iff (db : DB) (t : Int) :
    OrderResponse.get_existing_order_id db t = none ↔
      db.orders.find? (fun o => o.table_id == t) = none := by
  unfold OrderResponse.get_existing_order_id
  cases db.orders.find? (fun o => o.table_id == t) <;> simp

/-- C5 (amended): `RemoveOneUnit` on a table and menu with no matching line
never returns a NotFound outcome: when the table has no open order it replies
500 "Failed to retrieve order ID" with the database unchanged, and when the
table has an open order that lacks a line for the menu (but still has some
line) it replies 200 "Menu deleted successfully" with the database unchanged. -/
theorem remove_nonexistent_line (db : DB) (t m : Int) :
    (OrderResponse.get_existing_order_id db t = none →
      delete_order_item_handler noFaults db t m =
        (⟨500, "Failed to retrieve order ID", none⟩, ⟨db, 3⟩)) ∧
    (∀ oid, OrderResponse.get_existing_order_id db t = some oid →
      (∀ it ∈ db.order_items, delete_matches db t m it = false) →
      OrderResponse.has_items db oid = true →
      delete_order_item_handler noFaults db t m =
        (⟨200, "Menu deleted successfully", none⟩, ⟨db, 4⟩)) := by
  constructor
  · intro hlooknone
    have hnoord : ∀ o ∈ db.orders, ¬((fun o => o.table_id == t) o = true) :=
      List.find?_eq_none.mp ((get_existing_order_id_none_iff db t).mp hlooknone)
    have hjoin : joined_order_ids db t = [] := by
      unfold joined_order_ids
      have : db.orders.filter
          (fun o => db.tables.any (fun tt => o.table_id == tt.id && tt.id == t)) = [] := by
        rw [List.filter_eq_nil_iff]
        intro o ho hany
        rw [List.any_eq_true] at hany
        obtain ⟨tt, _, htt⟩ := hany
        simp only [Bool.and_eq_true, beq_iff_eq] at htt
        exact hnoord o ho (by simp only [beq_iff_eq]; omega)
      rw [this]
      rfl
    have hdm : ∀ it : OrderItemRow, delete_matches db t m it = false := by
      intro it
      unfold delete_matches
      rw [hjoin]
      rfl
    have h0 : (decrement_update db t m).2 = 0 := by
      simp only [decrement_update]
      rw [List.length_eq_zero, List.filter_eq_nil_iff]
      intro it _ hu
      have := update_matches_imp_delete db t m it hu
      rw [hdm it] at this
      exact Bool.noConfusion this
    have hdel1 : (delete_item_update db t m).1 = db := by
      show { db with order_items :=
        db.order_items.filter (fun it => !(delete_matches db t m it)) } = db
      have hf : db.order_items.filter (fun it => !(delete_matches db t m it)) =
          db.order_items :=
        List.filter_eq_self.mpr (fun a _ => by rw [hdm a]; rfl)
      rw [hf]
    have hlook2 : OrderResponse.get_existing_order_id (delete_item_update db t m).1 t =
        none := by
      rw [hdel1]
      exact hlooknone
    rw [delete_handler_run_no_update db t m h0, hlook2, hdel1]
  · intro oid hlook hnom hhas
    have h0 : (decrement_update db t m).2 = 0 := by
      simp only [decrement_update]
      rw [List.length_eq_zero, List.filter_eq_nil_iff]
      intro it hit hu
      have := update_matches_imp_delete db t m it hu
      rw [hnom it hit] at this
      exact Bool.noConfusion this
    have hdel1 : (delete_item_update db t m).1 = db := by
      show { db with order_items :=
        db.order_items.filter (fun it => !(delete_matches db t m it)) } = db
      have hf : db.order_items.filter (fun it => !(delete_matches db t m it)) =
          db.order_items :=
        List.filter_eq_self.mpr (fun a ha => by rw [hnom a ha]; rfl)
      rw [hf]
    rw [delete_handler_run_no_update db t m h0, hdel1, hlook]
    show (if OrderResponse.has_items db oid = true then
        ((⟨200, "Menu deleted successfully", none⟩ : Resp), (⟨db, 4⟩ : St))
      else
        (⟨200, "Menu deleted successfully and order deleted", none⟩,
         ⟨delete_order_exec db oid, 5⟩)) =
      ((⟨200, "Menu deleted successfully", none⟩ : Resp), (⟨db, 4⟩ : St))
    rw [hhas]
    rfl

/-- C7 (amended): a storage failure at the conditional decrement, the item
delete, the open-order re-resolution or the emptiness check is reported to the
caller as a 500 reply; but a failure of the final `DELETE from orders` is
discarded (`let _ =` in the source), and the handler still replies 200 "Menu
deleted successfully and order deleted" while the order row survives, as the
surviving open-order lookup in the conclusion shows. -/
theorem remove_one_unit_error_reporting (db : DB) (t m : Int) (f : Schedule) :
    (f 0 = true → delete_order_item_handler f db t m =
      (⟨500, "Failed to update quantity", none⟩, ⟨db, 1⟩)) ∧
    (f 0 = false → f 1 = true → (decrement_update db t m).2 = 0 →
      delete_order_item_handler f db t m =
        (⟨500, "Menu delete failed", none⟩, ⟨db, 2⟩)) ∧
    (f 0 = false → f 1 = false → f 2 = true → (decrement_update db t m).2 = 0 →
      delete_order_item_handler f db t m =
        (⟨500, "Failed to retrieve order ID", none⟩, ⟨(delete_item_update db t m).1, 3⟩)) ∧
    (∀ oid, f 0 = false → f 1 = false → f 2 = false → f 3 = true →
      (decrement_update db t m).2 = 0 →
      OrderResponse.get_existing_order_id (delete_item_update db t m).1 t = some oid →
      delete_order_item_handler f db t m =
        (⟨500, "Menu deleted failed", none⟩, ⟨(delete_item_update db t m).1, 4⟩)) ∧
    (∀ oid, f 0 = false → f 1 = false → f 2 = false → f 3 = false → f 4 = true →
      (decrement_update db t m).2 = 0 →
      OrderResponse.get_existing_order_id (delete_item_update db t m).1 t = some oid →
      OrderResponse.has_items (delete_item_update db t m).1 oid = false →
      delete_order_item_handler f db t m =
        (⟨200, "Menu deleted successfully and order deleted", none⟩,
         ⟨(delete_item_update db t m).1, 5⟩) ∧
      OrderResponse.get_existing_order_id (delete_order_item_handler f db t m).2.db t =
        some oid) := by
  refine ⟨?_, ?_, ?_, ?_, ?_⟩
  · intro h0t
    rw [delete_order_item_handler, h0t]
    rfl
  · intro h0f h1t hupd0
    have h1 : (decrement_update db t m).1 = db := decrement_update_zero db t m hupd0
    rw [delete_order_item_handler]
    simp only [h0f, Bool.false_eq_true, if_false, hupd0, lt_self_iff_false, h1t, if_true, h1]
  · intro h0f h1f h2t hupd0
    have h1 : (decrement_update db t m).1 = db := decrement_update_zero db t m hupd0
    rw [delete_order_item_handler]
    simp only [h0f, h1f, Bool.false_eq_true, if_false, hupd0, lt_self_iff_false, h2t,
      if_true, h1]
  · intro oid h0f h1f h2f h3t hupd0 hlook
    have h1 : (decrement_update db t m).1 = db := decrement_update_zero db t m hupd0
    rw [delete_order_item_handler]
    simp only [h0f, h1f, h2f, Bool.false_eq_true, if_false, hupd0, lt_self_iff_false, h1,
      hlook, h3t, if_true]
  · intro oid h0f h1f h2f h3f h4t hupd0 hlook hhas
    have h1 : (decrement_update db t m).1 = db := decrement_update_zero db t m hupd0
    have hrun : delete_order_item_handler f db t m =
        (⟨200, "Menu deleted successfully and order deleted", none⟩,
         ⟨(delete_item_update db t m).1, 5⟩) := by
      rw [delete_order_item_handler]
      simp only [h0f, h1f, h2f, h3f, h4t, Bool.false_eq_true, if_false, hupd0,
        lt_self_iff_false, h1, hlook, hhas, if_true]
    exact ⟨hrun, by rw [hrun]; exact hlook⟩

theorem find?_append_singleton {α : Type} (p : α → Bool) (l : List α) (a : α)
    (hl : l.find? p = none) (ha : p a = true) : (l ++ [a]).find? p = some a := by
  rw [List.find?_append, hl, List.find?_cons_of_pos _ ha]
  rfl

theorem map_fix {α : Type} (g : α → α) (l : List α) (h : ∀ a ∈ l, g a = a) :
    l.map g = l := by
  conv_rhs => rw [← List.map_id l]
  exact List.map_congr_left h

theorem submit_merge_extend_path (db : DB) (t m : Int) (rng : Nat → Int) (oid : Int)
    (ho : OrderResponse.get_existing_order_id db t = some oid)
    (hnone : ∀ it ∈ db.order_items, ¬(it.order_id = oid ∧ it.menu_id = m))
    (hfresh : ∀ it ∈ db.order_items, it.id ≠ db.next_item_id) :
    (create_order_handler noFaults rng db t [m, m]).2.db.order_items.filter
        (fun it => it.order_id == oid && it.menu_id == m) =
      [⟨db.next_item_id, oid, m, rng 0, 2⟩] ∧
    (create_order_handler noFaults rng db t [m, m]).1 =
      ⟨200, "All order items updated successfully", none⟩ := by
  have hp_db : db.order_items.find? (fun it => it.order_id == oid && it.menu_id == m) =
      none := by
    rw [List.find?_eq_none]
    intro it hit hp
    simp only [Bool.and_eq_true, beq_iff_eq] at hp
    exact hnone it hit hp
  have hget1 : OrderItem.get_existing_order_item_id db oid m = none := by
    unfold OrderItem.get_existing_order_item_id
    rw [hp_db]
    rfl
  have hfind2 : ((db.order_items ++
        [(⟨db.next_item_id, oid, m, rng 0, 1⟩ : OrderItemRow)]).find?
      (fun it => it.order_id == oid && it.menu_id == m)) =
      some (⟨db.next_item_id, oid, m, rng 0, 1⟩ : OrderItemRow) :=
    find?_append_singleton _ _ _ hp_db (by simp)
  have hget2 : OrderItem.get_existing_order_item_id (OrderItem.create db oid m (rng 0))
      oid m = some db.next_item_id := by
    unfold OrderItem.get_existing_order_item_id OrderItem.create
    dsimp only
    rw [hfind2]
    rfl
  have hlen : (([m, m] : List Int).length == 0) = false := rfl
  have hrun : create_order_handler noFaults rng db t [m, m] =
      (⟨200, "All order items updated successfully", none⟩,
       ⟨OrderItem.add_quantity_of_existing_order_item (OrderItem.create db oid m (rng 0))
          db.next_item_id, 5⟩) := by
    rw [create_order_handler]
    simp only [hlen, Bool.false_eq_true, if_false, noFaults_apply, ho]
    rw [update_items_loop]
    simp only [noFaults_apply, Bool.false_eq_true, if_false, hget1]
    rw [update_items_loop]
    simp only [noFaults_apply, Bool.false_eq_true, if_false, hget2]
    rw [update_items_loop]
  rw [hrun]
  refine ⟨?_, rfl⟩
  show ((db.order_items ++
      [(⟨db.next_item_id, oid, m, rng 0, 1⟩ : OrderItemRow)]).map (fun it =>
      if it.id == db.next_item_id then { it with quantity := it.quantity + 1 }
      else it)).filter (fun it => it.order_id == oid && it.menu_id == m) =
    [(⟨db.next_item_id, oid, m, rng 0, 2⟩ : OrderItemRow)]
  rw [List.map_append]
  have hmapfix : db.order_items.map (fun it =>
      if it.id == db.next_item_id then { it with quantity := it.quantity + 1 }
      else it) = db.order_items :=
    map_fix _ _ (fun a ha => if_neg (by simp [hfresh a ha]))
  rw [hmapfix]
  have hmapA : ([(⟨db.next_item_id, oid, m, rng 0, 1⟩ : OrderItemRow)].map (fun it =>
      if it.id == db.next_item_id then { it with quantity := it.quantity + 1 }
      else it)) = [⟨db.next_item_id, oid, m, rng 0, 2⟩] := by
    simp
  rw [hmapA, List.filter_append]
  have hfilnil : db.order_items.filter
      (fun it => it.order_id == oid && it.menu_id == m) = [] := by
    rw [List.filter_eq_nil_iff]
    intro a ha hp
    simp only [Bool.and_eq_true, beq_iff_eq] at hp
    exact hnone a ha hp
  rw [hfilnil]
  simp

theorem submit_new_order_duplicates (db : DB) (t m : Int) (rng : Nat → Int)
    (hnew : OrderResponse.get_existing_order_id db t = none)
    (hofresh : ∀ it ∈ db.order_items, it.order_id ≠ db.next_order_id) :
    (create_order_handler noFaults rng db t [m, m]).2.db.order_items.filter
        (fun it => it.order_id == db.next_order_id && it.menu_id == m) =
      [⟨db.next_item_id, db.next_order_id, m, rng 0, 1⟩,
       ⟨db.next_item_id + 1, db.next_order_id, m, rng 1, 1⟩] := by
  have hlen : (([m, m] : List Int).length == 0) = false := rfl
  have hrun : create_order_handler noFaults rng db t [m, m] =
      (⟨201, "Order and All Order Item Created Successfully", some db.next_order_id⟩,
       ⟨OrderItem.create (OrderItem.create (OrderResponse.create db t).1
          db.next_order_id m (rng 0)) db.next_order_id m (rng 1), 4⟩) := by
    rw [create_order_handler]
    simp only [hlen, Bool.false_eq_true, if_false, noFaults_apply, hnew]
    rw [create_items_loop]
    simp only [noFaults_apply, Bool.false_eq_true, if_false]
    rw [create_items_loop]
    simp only [noFaults_apply, Bool.false_eq_true, if_false]
    rw [create_items_loop]
    rfl
  rw [hrun]
  show ((db.order_items ++ [(⟨db.next_item_id, db.next_order_id, m, rng 0, 1⟩ : OrderItemRow)])
      ++ [(⟨db.next_item_id + 1, db.next_order_id, m, rng 1, 1⟩ : OrderItemRow)]).filter
      (fun it => it.order_id == db.next_order_id && it.menu_id == m) =
    [(⟨db.next_item_id, db.next_order_id, m, rng 0, 1⟩ : OrderItemRow),
     (⟨db.next_item_id + 1, db.next_order_id, m, rng 1, 1⟩ : OrderItemRow)]
  rw [List.filter_append, List.filter_append]
  have hfilnil : db.order_items.filter
      (fun it => it.order_id == db.next_order_id && it.menu_id == m) = [] := by
    rw [List.filter_eq_nil_iff]
    intro a ha hp
    simp only [Bool.and_eq_true, beq_iff_eq] at hp
    exact hofresh a ha hp.1
  rw [hfilnil]
  simp

theorem submit_merge_across_calls (db : DB) (t m : Int) (rng1 rng2 : Nat → Int)
    (hnew : OrderResponse.get_existing_order_id db t = none)
    (hofresh : ∀ it ∈ db.order_items, it.order_id ≠ db.next_order_id)
    (hifresh : ∀ it ∈ db.order_items, it.id ≠ db.next_item_id) :
    (create_order_handler noFaults rng2
        (create_order_handler noFaults rng1 db t [m]).2.db t [m]).2.db.order_items.filter
        (fun it => it.order_id == db.next_order_id && it.menu_id == m) =
      [⟨db.next_item_id, db.next_order_id, m, rng1 0, 2⟩] := by
  have hlen : (([m] : List Int).length == 0) = false := rfl
  have hrun1 : create_order_handler noFaults rng1 db t [m] =
      (⟨201, "Order and All Order Item Created Successfully", some db.next_order_id⟩,
       ⟨OrderItem.create (OrderResponse.create db t).1 db.next_order_id m (rng1 0), 3⟩) := by
    rw [create_order_handler]
    simp only [hlen, Bool.false_eq_true, if_false, noFaults_apply, hnew]
    rw [create_items_loop]
    simp only [noFaults_apply, Bool.false_eq_true, if_false]
    rw [create_items_loop]
    rfl
  rw [hrun1]
  dsimp only
  have hfind0 : db.orders.find? (fun o => o.table_id == t) = none :=
    (get_existing_order_id_none_iff db t).mp hnew
  have hlook1 : OrderResponse.get_existing_order_id
      (OrderItem.create (OrderResponse.create db t).1 db.next_order_id m (rng1 0)) t =
      some db.next_order_id := by
    unfold OrderResponse.get_existing_order_id OrderItem.create OrderResponse.create
    dsimp only
    rw [find?_append_singleton _ _ _ hfind0 (by simp)]
    rfl
  have hp_db : db.order_items.find?
      (fun it => it.order_id == db.next_order_id && it.menu_id == m) = none := by
    rw [List.find?_eq_none]
    intro it hit hp
    simp only [Bool.and_eq_true, beq_iff_eq] at hp
    exact hofresh it hit hp.1
  have hget : OrderItem.get_existing_order_item_id
      (OrderItem.create (OrderResponse.create db t).1 db.next_order_id m (rng1 0))
      db.next_order_id m = some db.next_item_id := by
    unfold OrderItem.get_existing_order_item_id OrderItem.create OrderResponse.create
    dsimp only
    rw [find?_append_singleton _ _ _ hp_db (by simp)]
    rfl
  have hrun2 : create_order_handler noFaults rng2
      (OrderItem.create (OrderResponse.create db t).1 db.next_order_id m (rng1 0)) t [m] =
      (⟨200, "All order items updated successfully", none⟩,
       ⟨OrderItem.add_quantity_of_existing_order_item
          (OrderItem.create (OrderResponse.create db t).1 db.next_order_id m (rng1 0))
          db.next_item_id, 3⟩) := by
    rw [create_order_handler]
    simp only [hlen, Bool.false_eq_true, if_false, noFaults_apply, hlook1]
    rw [update_items_loop]
    simp only [noFaults_apply, Bool.false_eq_true, if_false, hget]
    rw [update_items_loop]
  rw [hrun2]
  show ((db.order_items ++
      [(⟨db.next_item_id, db.next_order_id, m, rng1 0, 1⟩ : OrderItemRow)]).map (fun it =>
      if it.id == db.next_item_id then { it with quantity := it.quantity + 1 }
      else it)).filter
      (fun it => it.order_id == db.next_order_id && it.menu_id == m) =
    [(⟨db.next_item_id, db.next_order_id, m, rng1 0, 2⟩ : OrderItemRow)]
  rw [List.map_append]
  have hmapfix : db.order_items.map (fun it =>
      if it.id == db.next_item_id then { it with quantity := it.quantity + 1 }
      else it) = db.order_items :=
    map_fix _ _ (fun a ha => if_neg (by simp [hifresh a ha]))
  rw [hmapfix]
  have hmapB : ([(⟨db.next_item_id, db.next_order_id, m, rng1 0, 1⟩ : OrderItemRow)].map
      (fun it => if it.id == db.next_item_id then { it with quantity := it.quantity + 1 }
      else it)) = [⟨db.next_item_id, db.next_order_id, m, rng1 0, 2⟩] := by
    simp
  rw [hmapB, List.filter_append]
  have hfilnil : db.order_items.filter
      (fun it => it.order_id == db.next_order_id && it.menu_id == m) = [] := by
    rw [List.filter_eq_nil_iff]
    intro a ha hp
    simp only [Bool.and_eq_true, beq_iff_eq] at hp
    exact hofresh a ha hp.1
  rw [hfilnil]
  simp

/-- C1 (amended): duplicate menu ids merge into a single line with quantity 2
when the Submit call extends an existing order, and across two successive
Submit calls (the second finding the order the first created); but within one
Submit call that creates a new order, duplicate menu ids each create their own
line of quantity 1, because the create path performs no existence check. -/
theorem submit_merge_behaviour (db : DB) (t m : Int) (rng rng1 rng2 : Nat → Int) :
    (∀ oid, OrderResponse.get_existing_order_id db t = some oid →
      (∀ it ∈ db.order_items, ¬(it.order_id = oid ∧ it.menu_id = m)) →
      (∀ it ∈ db.order_items, it.id ≠ db.next_item_id) →
      (create_order_handler noFaults rng db t [m, m]).2.db.order_items.filter
          (fun it => it.order_id == oid && it.menu_id == m) =
        [⟨db.next_item_id, oid, m, rng 0, 2⟩]) ∧
    (OrderResponse.get_existing_order_id db t = none →
      (∀ it ∈ db.order_items, it.order_id ≠ db.next_order_id) →
      (∀ it ∈ db.order_items, it.id ≠ db.next_item_id) →
      (create_order_handler noFaults rng2
          (create_order_handler noFaults rng1 db t [m]).2.db t [m]).2.db.order_items.filter
          (fun it => it.order_id == db.next_order_id && it.menu_id == m) =
        [⟨db.next_item_id, db.next_order_id, m, rng1 0, 2⟩]) ∧
    (OrderResponse.get_existing_order_id db t = none →
      (∀ it ∈ db.order_items, it.order_id ≠ db.next_order_id) →
      (create_order_handler noFaults rng db t [m, m]).2.db.order_items.filter
          (fun it => it.order_id == db.next_order_id && it.menu_id == m) =
        [⟨db.next_item_id, db.next_order_id, m, rng 0, 1⟩,
         ⟨db.next_item_id + 1, db.next_order_id, m, rng 1, 1⟩]) :=
  ⟨fun oid ho h1 h2 => (submit_merge_extend_path db t m rng oid ho h1 h2).1,
   fun hnew h1 h2 => submit_merge_across_calls db t m rng1 rng2 hnew h1 h2,
   fun hnew h1 => submit_new_order_duplicates db t m rng hnew h1⟩

theorem submit_merge_behaviour_witness :
    (create_order_handler noFaults rng7
        (create_order_handler noFaults rng5 dbNoOrder 1 [1]).2.db 1 [1]).2.db.order_items.filter
        (fun it => it.order_id == 1 && it.menu_id == 1) =
      [⟨1, 1, 1, 5, 2⟩] :=
  (submit_merge_behaviour dbNoOrder 1 1 rng5 rng5 rng7).2.1 (by decide) (by decide) (by decide)

theorem submit_duplicate_line_counterexample :
    ((create_order_handler noFaults rng5 dbNoOrder 1 [1, 1]).2.db.order_items.filter
        (fun it => it.order_id == 1 && it.menu_id == 1)).length = 2 := by decide

theorem remove_one_unit_decrement_rule_witness :
    (delete_order_item_handler noFaults dbQtyTwo 1 1).1 =
      ⟨200, "Menu quantity updated successfully", none⟩ ∧
    ({ (⟨1, 1, 1, 6, 2⟩ : OrderItemRow) with
        quantity := 2 - 1, cooking_time := 6 - 6 / 2 }) ∈
      (delete_order_item_handler noFaults dbQtyTwo 1 1).2.db.order_items :=
  (remove_one_unit_decrement_rule dbQtyTwo 1 1).1 ⟨1, 1, 1, 6, 2⟩ ⟨1, "T-01"⟩ ⟨1, 1⟩
    (by decide) (by decide) (by decide) (by decide) (by decide) (by decide) (by decide)
    (by decide) (by decide)

theorem remove_last_item_cascades_witness :
    (delete_order_item_handler noFaults dbOneItem 1 1).1 =
      ⟨200, "Menu deleted successfully and order deleted", none⟩ ∧
    (delete_order_item_handler noFaults dbOneItem 1 1).2.db.orders.filter
      (fun o => o.table_id == 1) = [] ∧
    OrderResponse.get_existing_order_id
      (delete_order_item_handler noFaults dbOneItem 1 1).2.db 1 = none :=
  remove_last_item_cascades dbOneItem 1 1 ⟨1, "T-01"⟩ ⟨1, 1⟩ ⟨1, 1, 1, 6, 1⟩
    (by decide) (by decide) (by decide) (by decide) (by decide) (by decide)

theorem submit_at_most_one_order_witness :
    AtMostOneOrderPerTable ((create_order_handler noFaults rng5 dbNoOrder 1 [1]).2.db) :=
  (submit_at_most_one_order noFaults rng5 dbNoOrder 1 [1] List.Pairwise.nil).1

theorem remove_nonexistent_line_witness :
    delete_order_item_handler noFaults dbOneItem 1 2 =
      (⟨200, "Menu deleted successfully", none⟩, ⟨dbOneItem, 4⟩) :=
  (remove_nonexistent_line dbOneItem 1 2).2 1 (by decide) (by decide) (by decide)

theorem remove_nonexistent_line_counterexample :
    (delete_order_item_handler noFaults dbOneItem 1 2).1 =
      ⟨200, "Menu deleted successfully", none⟩ ∧
    (delete_order_item_handler noFaults dbOneItem 1 2).2.db = dbOneItem := by decide

theorem submit_success_response_witness :
    (create_order_handler noFaults rng5 dbOneItem 1 [2]).1 =
      ⟨200, "All order items updated successfully", none⟩ :=
  (submit_success_response rng5 dbOneItem 1 [2] (by decide)).1 1 (by decide)

theorem submit_success_no_order_id_counterexample :
    (create_order_handler noFaults rng5 dbOneItem 1 [2]).1 =
      ⟨200, "All order items updated successfully", none⟩ ∧
    (create_order_handler noFaults rng5 dbOneItem 1 [2]).1.oid = none := by decide

theorem remove_one_unit_error_reporting_witness :
    (delete_order_item_handler faultAt4 dbOneItem 1 1 =
      (⟨200, "Menu deleted successfully and order deleted", none⟩,
       ⟨(delete_item_update dbOneItem 1 1).1, 5⟩)) ∧
    OrderResponse.get_existing_order_id
      (delete_order_item_handler faultAt4 dbOneItem 1 1).2.db 1 = some 1 :=
  (remove_one_unit_error_reporting dbOneItem 1 1 faultAt4).2.2.2.2 1 rfl rfl rfl rfl rfl
    (by decide) (by decide) (by decide)

theorem remove_swallowed_error_counterexample :
    (delete_order_item_handler faultAt4 dbOneItem 1 1).1 =
      ⟨200, "Menu deleted successfully and order deleted", none⟩ ∧
    (delete_order_item_handler faultAt4 dbOneItem 1 1).2.db.orders = [⟨1, 1⟩] := by decide

theorem remove_item_non_cascade_witness :
    (delete_order_item_handler noFaults dbTwoItems 1 2).1 =
      ⟨200, "Menu deleted successfully", none⟩ ∧
    (delete_order_item_handler noFaults dbTwoItems 1 2).2.db.orders = dbTwoItems.orders ∧
    (⟨1, 1, 1, 6, 1⟩ : OrderItemRow) ∈
      (delete_order_item_handler noFaults dbTwoItems 1 2).2.db.order_items ∧
    (∀ it ∈ (delete_order_item_handler noFaults dbTwoItems 1 2).2.db.order_items,
      ¬(it.order_id = (⟨1, 1⟩ : OrderRow).id ∧ it.menu_id = 2)) :=
  remove_item_non_cascade dbTwoItems 1 2 ⟨1, "T-01"⟩ ⟨1, 1⟩ ⟨1, 1, 1, 6, 1⟩
    (by decide) (by decide) (by decide) (by decide) (by decide) (by decide) (by decide)

theorem lifecycle_preserves_item_bounds_witness :
    ItemsWF ((delete_order_item_handler noFaults dbQtyTwo 1 1).2.db) :=
  (lifecycle_preserves_item_bounds dbQtyTwo rng5
    (fun i => ⟨le_refl 5, by norm_num [rng5]⟩) (by unfold ItemsWF; decide)).2 noFaults 1 1

end Restaurant
